import Mathlib

/-!
Verification of the OpsYield FinOps web dashboard (TypeScript sources)
against its natural-language specification.

The TypeScript front end is shallowly embedded: JavaScript numbers are
modelled as rationals, optional (possibly `undefined`) fields as `Option`,
and the handful of string operations the code uses (`toLowerCase`,
`includes`) are implemented directly on character lists.
-/

/-! ## String primitives used by the dashboard code -/

/-- Does the character list `hay` start with `needle`? (helper for
JavaScript's `String.prototype.includes`). -/
def listStarts (needle hay : List Char) : Bool :=
  match needle, hay with
  | [], _ => true
  | _ :: _, [] => false
  | a :: ns, b :: hs => a == b && listStarts ns hs

/-- Does the character list `hay` contain `needle` as a contiguous run?
(JavaScript's `String.prototype.includes` on the underlying characters). -/
def listMentions (needle hay : List Char) : Bool :=
  match hay with
  | [] => needle.isEmpty
  | _ :: hs => listStarts needle hay || listMentions needle hs

/-- JavaScript `hay.includes(needle)`. -/
def jsIncludes (hay needle : String) : Bool :=
  listMentions needle.data hay.data

/-- JavaScript `s.toLowerCase()` (ASCII case folding, as `Char.toLower`). -/
def lowerStr (s : String) : String :=
  String.mk (s.data.map Char.toLower)

/-- JavaScript `String(x || "")` for an optional string `x`:
`undefined` and the empty string both collapse to `""`. -/
def jsStr (o : Option String) : String := o.getD ""

/-- JavaScript truthiness `Boolean(x)` for an optional string:
`undefined`, `null` and `""` are falsy. -/
def jsTruthyStr (o : Option String) : Bool :=
  match o with
  | none => false
  | some s => !(s == "")

/-! ## Data model (web-ui/src/api/client.ts and ResourceTable.tsx)

One `Resource` structure carries every field the dashboard components
read from a backend resource record (the client declares the record as an
open object `[key: string]: unknown`; the optional fields below are the
ones the components access). -/

structure Resource where
  id : String
  name : String
  type : String
  state : Option String
  external_ip : Option String
  idle_score : Option ℚ
  cost_30d : Option ℚ
  currency : Option String
  class_type : Option String
  region : Option String
  waste_reasons : Option (List String)
deriving DecidableEq, Repr

/-! ## RiskHeatmap.tsx: computeRisk -/

/-- JavaScript `Math.min` on two numbers. -/
def jsMin (a b : ℚ) : ℚ := if a ≤ b then a else b

/-- JavaScript `Math.max` on two numbers. -/
def jsMax (a b : ℚ) : ℚ := if a ≤ b then b else a

/-- The risk heuristic of `computeRisk` in
web-ui/src/components/dashboard/RiskHeatmap.tsx, transcribed statement by
statement: `state` lowercased, `running = state.includes("running")`,
non-number `idle_score` / `cost_30d` default to 0, `Boolean(r.external_ip)`
for the external address, then the additive accumulation and the final
clamp `Math.max(0, Math.min(100, risk))`. Each `risk += e if c` step is the
term `+ (if c then e else 0)`. -/
def computeRisk (r : Resource) : ℚ :=
  jsMax 0 (jsMin 100
    ((((((0 : ℚ)
      + (if jsIncludes (lowerStr (jsStr r.state)) "running" then 20 else 0))
      + (if !(jsTruthyStr r.external_ip) then 10 else 0))
      + jsMin 60 ((r.idle_score.getD 0) * (0.6 : ℚ)))
      + (if (r.cost_30d.getD 0) > 100 then 20 else 0))
      + (if (r.cost_30d.getD 0) > 500 then 20 else 0)))

/-- The risk formula exactly as the claim words it: +20 only when the
state *is* the string "running" (the other addends as in the code). -/
def riskClaimLiteral (r : Resource) : ℚ :=
  jsMax 0 (jsMin 100
    ((if r.state = some "running" then 20 else 0)
      + (if !(jsTruthyStr r.external_ip) then 10 else 0)
      + jsMin 60 ((r.idle_score.getD 0) * (0.6 : ℚ))
      + (if (r.cost_30d.getD 0) > 100 then 20 else 0)
      + (if (r.cost_30d.getD 0) > 500 then 20 else 0)))

/-- The amended risk formula: +20 when the lowercased state *contains*
"running" as a substring (this is the only change the code forces on the
claimed formula). -/
def riskClaimAmended (r : Resource) : ℚ :=
  jsMax 0 (jsMin 100
    ((if jsIncludes (lowerStr (jsStr r.state)) "running" then 20 else 0)
      + (if !(jsTruthyStr r.external_ip) then 10 else 0)
      + jsMin 60 ((r.idle_score.getD 0) * (0.6 : ℚ))
      + (if (r.cost_30d.getD 0) > 100 then 20 else 0)
      + (if (r.cost_30d.getD 0) > 500 then 20 else 0)))

/-- A resource in the Azure style: its power state is the string
"VM running", which contains "running" but is not equal to it. -/
def rAzureRunning : Resource :=
  { id := "vm-1", name := "vm-1", type := "virtual-machine"
  , state := some "VM running", external_ip := some "20.1.2.3"
  , idle_score := some 0, cost_30d := some 0
  , currency := none, class_type := none, region := none
  , waste_reasons := none }

/-- C1 (counterexample): for the Azure-style state "VM running" the code
adds the +20 running bonus (lowercased state contains "running") while the
claimed formula, which requires the state to *be* "running", does not:
the computed score is 20, the claimed score 0. -/
theorem computeRisk_deviates_from_claim_literal :
    computeRisk rAzureRunning = 20 ∧ riskClaimLiteral rAzureRunning = 0 := by
  have hrun : jsIncludes (lowerStr "VM running") "running" = true := by decide
  have hip : jsTruthyStr (some "20.1.2.3") = true := by decide
  have hne : ("VM running" : String) ≠ "running" := by decide
  constructor <;>
    norm_num [computeRisk, riskClaimLiteral, rAzureRunning, jsMin, jsMax, jsStr,
      hrun, hip, hne]

/-- C1 (amended): for every resource the computed risk score equals the
clamp to [0,100] of: 20 if the lowercased state contains "running", plus
10 if there is no truthy external_ip, plus min(60, idle_score * 0.6)
(idle_score defaulting to 0 when absent), plus 20 if cost_30d > 100, plus
a further 20 if cost_30d > 500. -/
theorem computeRisk_eq_riskClaimAmended :
    ∀ r : Resource, computeRisk r = riskClaimAmended r := by
  intro r
  unfold computeRisk riskClaimAmended
  ring_nf

/-! ## RiskHeatmap.tsx: riskItems -/

/-- One tile of the risk heatmap: `{ id: r.id, name: r.name, risk: computeRisk(r) }`. -/
structure RiskItem where
  id : String
  name : String
  risk : ℚ
deriving DecidableEq, Repr

/-- Insertion step of the comparator sort `(a, b) => b.risk - a.risk`
(descending by risk). -/
def insertByRiskDesc (x : RiskItem) : List RiskItem → List RiskItem
  | [] => [x]
  | y :: ys => if y.risk < x.risk then x :: y :: ys else y :: insertByRiskDesc x ys

/-- Sorting descending by risk, as the comparator sort does. -/
def sortByRiskDesc (l : List RiskItem) : List RiskItem :=
  l.foldr insertByRiskDesc []

/-- The heatmap tile list: map every resource to its tile, sort descending
by risk, keep the first 20 (`.slice(0, 20)`). The first argument models the
ambient `Math.random` stream a JavaScript evaluation carries; the current
component body never consults it. -/
def riskHeatmapItems (_ambientRandom : ℕ → ℚ) (rs : List Resource) : List RiskItem :=
  ((rs.map fun r => RiskItem.mk r.id r.name (computeRisk r)) |> sortByRiskDesc).take 20

/-- C2: computing the heatmap's per-resource risk items is deterministic:
the result is the same under any two ambient random streams, i.e. the
computation consumes no randomness, so two evaluations on the same
resource list yield identical risk scores. -/
theorem riskHeatmapItems_independent_of_randomness :
    ∀ (rng1 rng2 : ℕ → ℚ) (rs : List Resource),
      riskHeatmapItems rng1 rs = riskHeatmapItems rng2 rs := by
  intro rng1 rng2 rs
  rfl

/-! ## RiskScorer waste reasons (backend, modelled) -/

/-- Modelled from the spec: the backend RiskScorer (its code is not among
the repository files here; only the dashboard that displays its output is)
lists in `waste_reasons` every triggered scoring rule by name — the
running rule, the no-external-ip rule, the high-cost rule for
`cost_30d > 100` and the stacking very-high-cost rule for `cost_30d > 500`
(spec §4.5). -/
def wasteReasons (r : Resource) : List String :=
  (if lowerStr (jsStr r.state) = "running" then ["running"] else [])
    ++ (if jsTruthyStr r.external_ip then [] else ["no-external-ip"])
    ++ (if (r.cost_30d.getD 0) > 100 then ["high-cost"] else [])
    ++ (if (r.cost_30d.getD 0) > 500 then ["very-high-cost"] else [])

/-- The maximum-risk resource of the claim: running, no external IP, idle
signal 100, thirty-day cost 600. -/
def rMaxRisk : Resource :=
  { id := "vm-max", name := "vm-max", type := "virtual-machine"
  , state := some "running", external_ip := none
  , idle_score := some 100, cost_30d := some 600
  , currency := none, class_type := none, region := none
  , waste_reasons := none }

/-- C3: the running resource with no external IP, idle signal 100 and
cost_30d 600 scores exactly 100 (20+10+60+20+20 clamped to 100), and its
waste reasons include the running, no-external-ip and high-cost rules. -/
theorem rMaxRisk_scores_100_with_reasons :
    computeRisk rMaxRisk = 100
      ∧ "running" ∈ wasteReasons rMaxRisk
      ∧ "no-external-ip" ∈ wasteReasons rMaxRisk
      ∧ "high-cost" ∈ wasteReasons rMaxRisk := by
  have hrun : jsIncludes "running" "running" = true := by decide
  have hlow : lowerStr "running" = "running" := by decide
  refine ⟨?_, ?_, ?_, ?_⟩ <;>
    norm_num [computeRisk, wasteReasons, rMaxRisk, jsMin, jsMax, jsStr,
      jsTruthyStr, hrun, hlow]

/-! ## ResourceTable.tsx: the idle badge -/

/-- The two badge variants the idle-score cell can render. -/
inductive BadgeVariant where
  | destructive
  | outline
deriving DecidableEq, Repr

/-- The idle-score cell of ResourceTable: when `idle_score` is defined it
renders a badge, destructive for `idle_score > 50` and outline otherwise;
an undefined idle score renders no badge (a dash). -/
def idleBadge (idle : Option ℚ) : Option BadgeVariant :=
  idle.map fun s => if s > 50 then BadgeVariant.destructive else BadgeVariant.outline

/-- C4: a resource with a defined idle score gets the destructive idle
badge exactly when its idle score is strictly greater than 50; at exactly
50 the badge is the non-idle outline variant. -/
theorem idleBadge_destructive_iff_gt_50 :
    ∀ s : ℚ, (idleBadge (some s) = some BadgeVariant.destructive ↔ s > 50)
      ∧ idleBadge (some (50 : ℚ)) = some BadgeVariant.outline := by
  intro s
  constructor
  · by_cases h : s > 50 <;> simp [idleBadge, h]
  · norm_num [idleBadge]

/-! ## lib/format.ts -/

/-- The argument type of formatCurrency: a JavaScript
`number | undefined | null`. -/
inductive JsNumber where
  | undef
  | null
  | num (q : ℚ)
deriving DecidableEq, Repr

/-- A rendered string. The call
`new Intl.NumberFormat(locale, { style: "currency", currency }).format(q)`
of the external Intl library is modelled abstractly by the `currency`
constructor carrying the locale, the currency code and the amount. -/
inductive Formatted where
  | text (s : String)
  | currency (locale : String) (code : String) (amount : ℚ)
deriving DecidableEq, Repr

/-- formatCurrency of web-ui/src/lib/format.ts: undefined and null map to
the literal "$0.00"; a number is formatted with locale en-US and the
hard-coded currency code USD. -/
def formatCurrency : JsNumber → Formatted
  | .undef => .text "$0.00"
  | .null => .text "$0.00"
  | .num q => .currency "en-US" "USD" q

/-- The Cost (30d) cell of ResourceTable:
`r.cost_30d !== undefined ? formatCurrency(r.cost_30d) : "-"`. -/
def costCell (r : Resource) : Formatted :=
  match r.cost_30d with
  | some q => formatCurrency (JsNumber.num q)
  | none => Formatted.text "-"

/-- C8: formatCurrency is total over number, undefined and null: both
undefined and null render as "$0.00", and every numeric amount — in
particular every cost cell of the resource table — is rendered with the
hard-coded USD currency code, whatever the currency field of the record
says. -/
theorem formatCurrency_total_and_usd :
    ∀ (r : Resource) (q : ℚ),
      formatCurrency JsNumber.undef = Formatted.text "$0.00"
      ∧ formatCurrency JsNumber.null = Formatted.text "$0.00"
      ∧ formatCurrency (JsNumber.num q) = Formatted.currency "en-US" "USD" q
      ∧ costCell { r with cost_30d := some q } = Formatted.currency "en-US" "USD" q := by
  intro r q
  exact ⟨rfl, rfl, rfl, rfl⟩

/-! ## FinOpsInsights.tsx: cost-driver truncation -/

/-- One entry of the cost_drivers ranking returned by the backend. -/
structure CostDriver where
  service : String
  cost : ℚ
  currency : Option String
deriving DecidableEq, Repr

/-- FinOpsInsights: `topDrivers = (data.cost_drivers || []).slice(0, 8)`. -/
def topDrivers (cost_drivers : Option (List CostDriver)) : List CostDriver :=
  (cost_drivers.getD []).take 8

/-- C6: the insights panel displays exactly the first min(8, length)
entries of the backend's cost_drivers list, in the backend-given order
(the displayed list is literally the 8-prefix of the input, so no
re-ranking happens in the presentation layer). -/
theorem topDrivers_first_min_8 :
    ∀ l : List CostDriver,
      topDrivers (some l) = l.take 8
      ∧ (topDrivers (some l)).length = min 8 l.length := by
  intro l
  exact ⟨rfl, by simp [topDrivers]⟩

/-! ## api/client.ts and the store's axios instance -/

/-- The configuration handed to `axios.create`. -/
structure AxiosConfig where
  baseURL : String
  timeout : ℕ
  contentType : String
deriving DecidableEq, Repr

/-- The fallback base URL of web-ui/src/api/client.ts. -/
def defaultApiBase : String := "http://localhost:8000/api"

/-- The axios instance of web-ui/src/api/client.ts:
`baseURL: VITE_API_URL || "http://localhost:8000/api", timeout: 90000`. -/
def clientApi (envApiUrl : Option String) : AxiosConfig :=
  { baseURL := envApiUrl.getD defaultApiBase
  , timeout := 90000
  , contentType := "application/json" }

/-- The axios instance of the store's client module:
`baseURL: "/api", timeout: 90000`. -/
def storeApi : AxiosConfig :=
  { baseURL := "/api", timeout := 90000, contentType := "application/json" }

/-- One request through an axios instance: its url and the per-request
timeout override, when the call site passes one. -/
structure ApiCall where
  url : String
  timeoutOverride : Option ℕ
deriving DecidableEq, Repr

/-- The timeout axios applies to a request: the per-request override if
given, else the instance default. -/
def effectiveTimeout (cfg : AxiosConfig) (c : ApiCall) : ℕ :=
  c.timeoutOverride.getD cfg.timeout

/-- The store's `api.get("/cloud/status")` call: no per-request config. -/
def cloudStatusCall : ApiCall := { url := "/cloud/status", timeoutOverride := none }

/-- The store's `api.get(url)` call in fetchData (url assembled from
provider, days and ids): no per-request config. -/
def fetchDataCall (url : String) : ApiCall := { url := url, timeoutOverride := none }

/-- C7: both frontend axios instances are created with timeout 90000
milliseconds (90 seconds), and every request the store issues (fetchData's
analyze/aggregate call and the cloud-status call) carries no per-request
override, so its effective timeout is those 90000 ms. -/
theorem api_timeout_90_seconds :
    ∀ (envApiUrl : Option String) (u : String),
      (clientApi envApiUrl).timeout = 90000
      ∧ storeApi.timeout = 90000
      ∧ effectiveTimeout storeApi (fetchDataCall u) = 90000
      ∧ effectiveTimeout storeApi cloudStatusCall = 90000
      ∧ (clientApi envApiUrl).timeout = 90 * 1000 := by
  intro envApiUrl u
  exact ⟨rfl, rfl, rfl, rfl, rfl⟩

/-! ## AnalysisResult (api/client.ts) and the store (useOpsStore) -/

/-- The meta block of an AnalysisResult. -/
structure ResultMeta where
  provider : String
  period : String
  generated_at : Option String
deriving DecidableEq, Repr

/-- The summary block of an AnalysisResult. -/
structure ResultSummary where
  total_cost : ℚ
  resource_count : ℚ
  risk_score : ℚ
  currency : Option String
deriving DecidableEq, Repr

/-- One point of the trends series (NormalizedCost in client.ts). -/
structure NormalizedCost where
  amount : ℚ
  currency : String
  date : String
  service : String
  provider : String
  account : Option String
  region : Option String
  tags : List (String × String)
deriving DecidableEq, Repr

/-- The AnalysisResult shape of api/client.ts. The fields the client types
as unknown[] carry no structure the dashboard reads, so they are modelled
as opaque string payloads. -/
structure AnalysisResult where
  meta : ResultMeta
  summary : ResultSummary
  trends : List NormalizedCost
  anomalies : List String
  forecast : List String
  governance_issues : List String
  resources : List Resource
  cost_drivers : Option (List CostDriver)
  resource_types : Option (List (String × ℚ))
  running_count : Option ℚ
  high_cost_resources : Option (List String)
  idle_resources : Option (List String)
  waste_findings : Option (List String)
deriving DecidableEq, Repr

/-- The aggregate-mode normalization inside fetchData:
`{ ...response.data, meta: { generated_at: response.data.meta.generated_at,
provider: "aggregate", period: "30 days" } }`. -/
def normalizeAggregate (d : AnalysisResult) : AnalysisResult :=
  { d with meta :=
      { generated_at := d.meta.generated_at
      , provider := "aggregate"
      , period := "30 days" } }

/-- C9: the aggregate normalization touches only the meta block — provider
becomes "aggregate", period becomes "30 days", generated_at is carried
over from the response — and every other top-level field of the stored
result is identical to the field of the backend response. -/
theorem normalizeAggregate_frame :
    ∀ d : AnalysisResult,
      (normalizeAggregate d).meta.provider = "aggregate"
      ∧ (normalizeAggregate d).meta.period = "30 days"
      ∧ (normalizeAggregate d).meta.generated_at = d.meta.generated_at
      ∧ (normalizeAggregate d).summary = d.summary
      ∧ (normalizeAggregate d).trends = d.trends
      ∧ (normalizeAggregate d).anomalies = d.anomalies
      ∧ (normalizeAggregate d).forecast = d.forecast
      ∧ (normalizeAggregate d).governance_issues = d.governance_issues
      ∧ (normalizeAggregate d).resources = d.resources
      ∧ (normalizeAggregate d).cost_drivers = d.cost_drivers
      ∧ (normalizeAggregate d).resource_types = d.resource_types
      ∧ (normalizeAggregate d).running_count = d.running_count
      ∧ (normalizeAggregate d).high_cost_resources = d.high_cost_resources
      ∧ (normalizeAggregate d).idle_resources = d.idle_resources
      ∧ (normalizeAggregate d).waste_findings = d.waste_findings := by
  intro d
  exact ⟨rfl, rfl, rfl, rfl, rfl, rfl, rfl, rfl, rfl, rfl, rfl, rfl, rfl, rfl, rfl⟩

/-- The per-provider section of the cloud status probe. -/
structure ProviderStatus where
  installed : Bool
  authenticated : Bool
deriving DecidableEq, Repr

/-- The cloud status structure of api/client.ts (the identifier lists are
irrelevant to the dashboard gate and omitted). -/
structure CloudState where
  gcp : ProviderStatus
  aws : ProviderStatus
  azure : ProviderStatus
deriving DecidableEq, Repr

/-- The TypeScript index access `cloudStatus?.[provider]`: a provider name
that is not one of the three keys yields undefined. -/
def statusFor (cs : CloudState) (p : String) : Option ProviderStatus :=
  if p = "gcp" then some cs.gcp
  else if p = "aws" then some cs.aws
  else if p = "azure" then some cs.azure
  else none

/-- The store state of useOpsStore (the slice the dashboard and fetchData
read and write). -/
structure StoreState where
  provider : String
  data : Option AnalysisResult
  cloudStatus : Option CloudState
  loading : Bool
  error : Option String
  isAggregate : Bool
deriving DecidableEq, Repr

/-- Dashboard's `isConfigured = currentStatus?.installed &&
currentStatus?.authenticated` (undefined collapses to false). -/
def isConfigured (s : StoreState) : Bool :=
  match s.cloudStatus with
  | none => false
  | some cs =>
    match statusFor cs s.provider with
    | none => false
    | some st => st.installed && st.authenticated

/-- The guard of App.tsx that shows SetupInstructions:
`cloudStatus && !isAggregate && !isConfigured`. -/
def setupGate (s : StoreState) : Bool :=
  s.cloudStatus.isSome && !s.isAggregate && !(isConfigured s)

/-- What the Dashboard component renders. -/
inductive Screen where
  | setup
  | errorAlert
  | analytics
deriving DecidableEq, Repr

/-- The Dashboard body of App.tsx: the setup-instructions guard first,
then the error alert when the store error is non-null, else the analytics
(KPI grid, charts, insights). -/
def renderDashboard (s : StoreState) : Screen :=
  if setupGate s then Screen.setup
  else if s.error.isSome then Screen.errorAlert
  else Screen.analytics

/-- The state transition of the store's fetchData: it first sets
`loading: true, error: null`; then, with the settled request as an
`Except` value, a success stores the (aggregate-normalized) response with
`loading: false`, and a failure stores
`error: message, loading: false, data: null`. -/
def fetchDataStep (s : StoreState) (resp : Except String AnalysisResult) : StoreState :=
  let s1 : StoreState := { s with loading := true, error := none }
  match resp with
  | Except.ok d =>
    { s1 with
        data := some (if s.isAggregate then normalizeAggregate d else d)
      , loading := false }
  | Except.error msg =>
    { s1 with error := some msg, loading := false, data := none }

/-- An unconfigured-GCP store state: cloud status is loaded, the selected
provider gcp is neither installed nor authenticated, aggregate mode off. -/
def sUnconfigured : StoreState :=
  { provider := "gcp"
  , data := none
  , cloudStatus := some
      { gcp := { installed := false, authenticated := false }
      , aws := { installed := false, authenticated := false }
      , azure := { installed := false, authenticated := false } }
  , loading := true
  , error := none
  , isAggregate := false }

/-- C5 (counterexample): after a failed fetch in the unconfigured-GCP
state the store error is the non-null failure message, yet the dashboard
renders the setup-instructions screen, not the error alert the claim
promises: the setup guard of App.tsx runs before the error branch. -/
theorem dashboard_setup_gate_preempts_error_alert :
    (fetchDataStep sUnconfigured (Except.error "Failed to fetch data")).error
        = some "Failed to fetch data"
      ∧ renderDashboard (fetchDataStep sUnconfigured (Except.error "Failed to fetch data"))
        = Screen.setup
      ∧ Screen.setup ≠ Screen.errorAlert := by
  refine ⟨rfl, ?_, by decide⟩
  decide

/-- C5 (amended): a failed analyze/aggregate request ends in a failure
state, not an empty or misleading result: fetchData stores data null,
loading false and a non-null error message; the dashboard then never
renders the analytics, and renders the error alert whenever the
setup-instructions guard does not fire (it fires only when a loaded cloud
status shows the selected provider unconfigured outside aggregate mode);
on success the error is null and data holds the (aggregate-normalized)
response. -/
theorem fetchData_failure_is_failure_state :
    ∀ (s : StoreState) (msg : String) (d : AnalysisResult),
      ((fetchDataStep s (Except.error msg)).data = none
        ∧ (fetchDataStep s (Except.error msg)).loading = false
        ∧ (fetchDataStep s (Except.error msg)).error = some msg)
      ∧ renderDashboard (fetchDataStep s (Except.error msg)) ≠ Screen.analytics
      ∧ (setupGate (fetchDataStep s (Except.error msg)) = false →
          renderDashboard (fetchDataStep s (Except.error msg)) = Screen.errorAlert)
      ∧ ((fetchDataStep s (Except.ok d)).error = none
        ∧ (fetchDataStep s (Except.ok d)).data
            = some (if s.isAggregate then normalizeAggregate d else d)) := by
  intro s msg d
  refine ⟨⟨rfl, rfl, rfl⟩, ?_, ?_, rfl, rfl⟩
  · unfold renderDashboard
    split
    · exact fun h => Screen.noConfusion h
    · simp [fetchDataStep]
  · intro hgate
    simp only [fetchDataStep] at hgate
    simp [renderDashboard, fetchDataStep, hgate]

/-! ## ResourceTable.tsx: the filter box -/

/-- The filter predicate of ResourceTable: a row stays when its name, its
type, or its (present, truthy) state contains the filter text, everything
compared lowercased:
`r.name.toLowerCase().includes(filter.toLowerCase()) || ... || (r.state && r.state.toLowerCase().includes(filter.toLowerCase()))`. -/
def rowMatches (filterText : String) (r : Resource) : Bool :=
  jsIncludes (lowerStr r.name) (lowerStr filterText)
    || jsIncludes (lowerStr r.type) (lowerStr filterText)
    || (match r.state with
        | none => false
        | some s => !(s == "") && jsIncludes (lowerStr s) (lowerStr filterText))

/-- The displayed rows: `resources.filter(rowMatches)`. -/
def filteredRows (rs : List Resource) (filterText : String) : List Resource :=
  rs.filter (rowMatches filterText)

/-- An empty needle is contained in every character list. -/
theorem listMentions_nil (hay : List Char) : listMentions [] hay = true := by
  cases hay <;> simp [listMentions, listStarts]

/-- JavaScript `s.includes("")` is always true. -/
theorem jsIncludes_empty_needle (s : String) : jsIncludes s "" = true := by
  have h : ("" : String).data = [] := rfl
  simp [jsIncludes, h, listMentions_nil]

/-- Lowercasing the empty string gives the empty string. -/
theorem lowerStr_empty : lowerStr "" = "" := rfl

/-- Every row matches the empty filter (its first disjunct is already
true). -/
theorem rowMatches_empty (r : Resource) : rowMatches "" r = true := by
  simp [rowMatches, lowerStr_empty, jsIncludes_empty_needle]

/-- C10: for every resource list and filter string the displayed rows are
an order-preserving sub-list of the input, every displayed row matches the
case-insensitive name/type/state filter, the empty filter displays every
input resource unchanged, and the displayed count never exceeds the input
count. -/
theorem resourceTable_filter_props :
    ∀ (rs : List Resource) (filterText : String),
      List.Sublist (filteredRows rs filterText) rs
      ∧ (filteredRows rs filterText).all (rowMatches filterText) = true
      ∧ filteredRows rs "" = rs
      ∧ (filteredRows rs filterText).length ≤ rs.length := by
  intro rs filterText
  refine ⟨List.filter_sublist rs, ?_, ?_, List.length_filter_le _ rs⟩
  · rw [List.all_eq_true]
    intro a ha
    exact List.of_mem_filter ha
  · exact List.filter_eq_self.mpr fun a _ => rowMatches_empty a
